import Mathlib

/-!
Verification of `llm-anthropic-vertex` auxiliary programs.

This file embeds, as executable Lean definitions, the parts of the
repository that the claims concern:

* `Cassette` — `scripts/check_encoded_strings.py`, the one-off script that
  rewrites recorded YAML HTTP fixtures (decompressing gzip bodies) behind
  an interactive confirmation prompt.
* `GcloudSetup` — `gcloud_setup.py`, the credential/environment preflight
  checker (`main`, `check_credential_expiry`, `get_adc_path`, and the
  subprocess/environment side effects of the module).
* `Adapter` — the prefill/stop-sequence and tool-result pairing behaviour
  of the plugin adapter, modelled from the specification (its source is
  exercised only through `tests/test_anthropic.py`).
* `Combined` — a two-program world used to state noninterference between
  the checker and the fixture script.

External library behaviour (gzip decompression + UTF-8 decoding, YAML
parse/dump, ISO timestamp parsing) is passed in as explicit function
parameters, mirroring the exception behaviour of the Python call sites:
a `none`/`Except.error` result stands for the exception the source code
observes at that call.
-/

namespace Cassette

/-- The bytes Python's `bytes.strip()` removes: ASCII whitespace
`b' \t\n\r\x0b\x0c'`. -/
def isAsciiWhitespaceByte (b : Nat) : Bool :=
  b == 0x20 || b == 0x09 || b == 0x0a || b == 0x0d || b == 0x0b || b == 0x0c

/-- Python `bytes.strip()`: drop ASCII whitespace bytes from both ends. -/
def stripBytes (bs : List Nat) : List Nat :=
  ((bs.dropWhile isAsciiWhitespaceByte).reverse.dropWhile isAsciiWhitespaceByte).reverse

/-- The value found at `response.body.string` in a cassette: YAML gives
either a text string or (via the `!!binary` tag) a bytes value. -/
inductive BodyString
  | str (s : String)
  | bytes (b : List Nat)
deriving DecidableEq

/-- The `response.body` dict; `string` is `none` when the body is not a
dict with a `string` key. -/
structure Body where
  string : Option BodyString
deriving DecidableEq

/-- The `response` dict of an interaction: a `body` (absent when the
interaction has no `body` key) and a `headers` dict. -/
structure Resp where
  body : Option Body
  headers : List (String × String)
deriving DecidableEq

/-- One element of the cassette's `interactions` list. -/
structure Interaction where
  response : Option Resp
deriving DecidableEq

/-- Python `key in dict` on the headers dict. -/
def containsKey (hs : List (String × String)) (k : String) : Bool :=
  hs.any (fun h => h.1 == k)

/-- Python `dict.pop(key)` on the headers dict (the removal part; a
missing key raises `KeyError`, handled at the call site). -/
def removeKey (hs : List (String × String)) (k : String) : List (String × String) :=
  hs.filter (fun h => h.1 != k)

/-- The `response.body.string` value of an interaction, when every level
is present. -/
def getString (i : Interaction) : Option BodyString :=
  match i.response with
  | none => none
  | some r =>
    match r.body with
    | none => none
    | some b => b.string

/-- The `response.headers` dict of an interaction, when `response` is
present. -/
def getHeaders (i : Interaction) : Option (List (String × String)) :=
  match i.response with
  | none => none
  | some r => some r.headers

/-- The loop body of `process_yaml_file` for one interaction
(`check_encoded_strings.py` lines 77–95).  `dec` models
`decompress_gzip_string` (gzip decompression + UTF-8 decode; `none` when
the caught exception path prints an error and returns `None`).  The
result is the possibly rewritten interaction together with the `modified`
contribution; `Except.error ()` is the uncaught `KeyError` raised by
`headers.pop('Content-Encoding')` when that key is absent. -/
def processInteraction (dec : List Nat → Option String) (i : Interaction) :
    Except Unit (Interaction × Bool) :=
  match i.response with
  | none => .ok (i, false)
  | some r =>
    match r.body with
    | none => .ok (i, false)
    | some b =>
      match b.string with
      | some (.bytes bs) =>
        match dec (stripBytes bs) with
        | some d =>
          if d = "" then .ok (i, false)
          else if containsKey r.headers "Content-Encoding" then
            .ok (⟨some ⟨some ⟨some (.str d)⟩, removeKey r.headers "Content-Encoding"⟩⟩, true)
          else .error ()
        | none => .ok (i, false)
      | some (.str _) => .ok (i, false)
      | none => .ok (i, false)

/-- The whole `for interaction in data['interactions']` loop: interactions
are processed in order, a raised `KeyError` aborts the loop, and the
`modified` flags are or-ed together. -/
def processInteractions (dec : List Nat → Option String) :
    List Interaction → Except Unit (List Interaction × Bool)
  | [] => .ok ([], false)
  | i :: is =>
    match processInteraction dec i with
    | .error e => .error e
    | .ok (i', m) =>
      match processInteractions dec is with
      | .error e => .error e
      | .ok (is', ms) => .ok (i' :: is', m || ms)

/-- The recognised answers of the `[y]es / [n]o / [q]uit?` prompt. -/
inductive Answer
  | write
  | skip
  | quit
deriving DecidableEq

/-- The characters Python's `str.strip()` removes. -/
def isPySpace (c : Char) : Bool :=
  c = ' ' || c = '\t' || c = '\n' || c = '\r' || c = '\x0b' || c = '\x0c'

/-- Python `str.strip()` over the character list. -/
def stripChars (cs : List Char) : List Char :=
  ((cs.dropWhile isPySpace).reverse.dropWhile isPySpace).reverse

/-- Python `str.lower()` on one (ASCII) character. -/
def toLowerChar (c : Char) : Char :=
  if 'A' ≤ c ∧ c ≤ 'Z' then Char.ofNat (c.toNat + 32) else c

/-- Python `response.strip().lower()`. -/
def pyStripLower (s : String) : String :=
  ⟨(stripChars s.data).map toLowerChar⟩

/-- `response.strip().lower()` classification of one typed line
(`check_encoded_strings.py` lines 123–134). -/
def interpretAnswer (s : String) : Option Answer :=
  let r := pyStripLower s
  if r = "y" ∨ r = "yes" then some .write
  else if r = "n" ∨ r = "no" then some .skip
  else if r = "q" ∨ r = "quit" then some .quit
  else none

/-- The `while True` prompt loop: keep reading lines until one is
recognised; `none` models `input()` raising `EOFError` when the input
stream is exhausted. Returns the decision and the unconsumed input. -/
def askUser : List String → Option (Answer × List String)
  | [] => none
  | s :: rest =>
    match interpretAnswer s with
    | some a => some (a, rest)
    | none => askUser rest

/-- The shape `yaml.safe_load` gives back: a dict with an `interactions`
list, or anything else (which the script leaves alone). -/
inductive Yaml
  | cassette (interactions : List Interaction)
  | other

/-- How one call of `process_yaml_file` ends: a Python `return`, a
`sys.exit(0)`, or an uncaught exception propagating to the caller. -/
inductive Outcome
  | ret (b : Bool)
  | exitZero
  | raised
deriving DecidableEq

/-- Result of one `process_yaml_file` call: how it ended, the file's
content on disk afterwards, and the unconsumed interactive input. -/
structure PResult where
  outcome : Outcome
  content : String
  rest : List String
deriving DecidableEq

/-- `process_yaml_file` (`check_encoded_strings.py` lines 59–134).
`parse` models `yaml.safe_load` (`none` = parse error, printed and
swallowed), `dump` models `yaml.dump` on the rewritten data, `dec` models
`decompress_gzip_string`, `inputs` is the interactive input stream and
`content` the file's current content on disk. -/
def process_yaml_file (parse : String → Option Yaml) (dump : List Interaction → String)
    (dec : List Nat → Option String) (inputs : List String) (content : String) : PResult :=
  match parse content with
  | none => ⟨.ret false, content, inputs⟩
  | some .other => ⟨.ret false, content, inputs⟩
  | some (.cassette is) =>
    match processInteractions dec is with
    | .error _ => ⟨.raised, content, inputs⟩
    | .ok (is', modified) =>
      if modified then
        match askUser inputs with
        | none => ⟨.raised, content, []⟩
        | some (.write, rest) => ⟨.ret true, dump is', rest⟩
        | some (.skip, rest) => ⟨.ret false, content, rest⟩
        | some (.quit, rest) => ⟨.exitZero, content, rest⟩
      else ⟨.ret false, content, inputs⟩

/-- The per-file loop of the script's `main` (lines 167–184): each file is
processed under `try/except Exception` (so a raised error is printed and
the loop continues), `sys.exit(0)` stops the whole process (SystemExit is
not an `Exception`), and `processed` counts the files written.  Returns
the final on-disk contents, `some 0` when the process exited early via
the quit answer, and the processed count. -/
def mainLoop (parse : String → Option Yaml) (dump : List Interaction → String)
    (dec : List Nat → Option String) :
    List String → List String → List String × Option Nat × Nat
  | _, [] => ([], none, 0)
  | inputs, c :: cs =>
    let r := process_yaml_file parse dump dec inputs c
    match r.outcome with
    | .exitZero => (r.content :: cs, some 0, 0)
    | .ret true =>
      let t := mainLoop parse dump dec r.rest cs
      (r.content :: t.1, t.2.1, t.2.2 + 1)
    | .ret false =>
      let t := mainLoop parse dump dec r.rest cs
      (r.content :: t.1, t.2.1, t.2.2)
    | .raised =>
      let t := mainLoop parse dump dec r.rest cs
      (r.content :: t.1, t.2.1, t.2.2)

end Cassette

namespace GcloudSetup

/-- The five validation steps of `gcloud_setup.py`'s `main`. -/
inductive Check
  | gcloud
  | adc
  | project
  | region
  | vertexApi
deriving DecidableEq

/-- The fixed order in which `main` runs its checks. -/
def checkOrder : List Check :=
  [.gcloud, .adc, .project, .region, .vertexApi]

/-- The inputs `main` consumes, one field per called helper: the result of
`check_gcloud_installed`, of `check_adc`, of `get_current_project`, the
`GOOGLE_CLOUD_PROJECT` value and prompt answer seen by
`set_project_env_var`, the result of `get_region`, and the result of
`check_vertex_api_enabled`. -/
structure Env where
  gcloudInstalled : Bool
  adcValid : Bool
  credType : Option String
  currentProject : Option String
  projEnvExisting : Option String
  projAnswer : String
  regionResult : Option String
  apiEnabled : Bool

/-- `set_project_env_var` (`gcloud_setup.py` lines 189–225): whether the
variable is already set and equal, set and different (prompt consulted),
or unset, every path returns `True`. -/
def set_project_env_var (existing : Option String) (project : String) (answer : String) : Bool :=
  match existing with
  | some e =>
    if e = project then true
    else if answer ≠ "" ∧ answer ≠ "y" then true
    else true
  | none => true

theorem set_project_env_var_eq_true (existing : Option String) (project answer : String) :
    set_project_env_var existing project answer = true := by
  unfold set_project_env_var
  cases existing with
  | none => rfl
  | some e =>
    by_cases h : e = project
    · simp [h]
    · simp [h]

/-- `main` (`gcloud_setup.py` lines 335–397), instrumented with the list
of checks it actually ran.  Sub-checks are consulted through `e`; the
exit code is the function's return value (`sys.exit(main())`). -/
def mainRun (e : Env) : Nat × List Check :=
  if e.gcloudInstalled = false then (1, [.gcloud])
  else if e.adcValid = false then (1, [.gcloud, .adc])
  else
    match e.currentProject with
    | none => (1, [.gcloud, .adc, .project])
    | some p =>
      if set_project_env_var e.projEnvExisting p e.projAnswer = false then
        (1, [.gcloud, .adc, .project])
      else
        match e.regionResult with
        | none => (1, [.gcloud, .adc, .project, .region])
        | some _ => (0, [.gcloud, .adc, .project, .region, .vertexApi])

/-- A timestamp as `datetime.fromisoformat` yields it: timezone-aware
(comparable with `datetime.now(timezone.utc)`) or naive (comparison with
an aware datetime raises `TypeError`).  The payload is the (putative)
epoch value. -/
inductive ParsedTime
  | aware (t : Int)
  | naive (t : Int)

/-- The `expiry` value of a credentials dict: a string, or some non-string
JSON value (on which `.replace` raises `AttributeError`). -/
inductive ExpiryVal
  | str (s : String)
  | nonStr
deriving DecidableEq

/-- A credentials dict as `check_credential_expiry` reads it: the `type`
key (absent = `creds.get('type', 'unknown')` default) and the `expiry`
key. -/
structure Creds where
  type : Option String
  expiry : Option ExpiryVal

/-- Python's `s.replace('Z', '+00:00')` (single-character pattern, so a
character-wise rewrite). -/
def replaceZChars : List Char → List Char
  | [] => []
  | c :: cs =>
    if c = 'Z' then '+' :: '0' :: '0' :: ':' :: '0' :: '0' :: replaceZChars cs
    else c :: replaceZChars cs

/-- `creds['expiry'].replace('Z', '+00:00')`. -/
def pyReplaceZ (s : String) : String := ⟨replaceZChars s.data⟩

/-- `check_credential_expiry` (`gcloud_setup.py` lines 94–121).  `parse`
models `datetime.fromisoformat` (`none` = `ValueError`, caught), `now`
models `datetime.now(timezone.utc)`.  `Except.error ()` is the uncaught
`TypeError` raised by comparing a naive parsed datetime with the aware
`now`. -/
def check_credential_expiry (parse : String → Option ParsedTime) (now : Int) (c : Creds) :
    Except Unit (Bool × Option String) :=
  let credentialType := c.type.getD "unknown"
  if credentialType = "service_account" then .ok (true, some "service_account")
  else if credentialType = "authorized_user" then
    match c.expiry with
    | some (.str s) =>
      match parse (pyReplaceZ s) with
      | some (.aware t) =>
        if t < now then .ok (false, some "user") else .ok (true, some "user")
      | some (.naive _) => .error ()
      | none => .ok (true, some "user")
    | some .nonStr => .ok (true, some "user")
    | none => .ok (true, some "user")
  else .ok (true, some "other")

/-- The environment `get_adc_path` consults: the
`GOOGLE_APPLICATION_CREDENTIALS` and `APPDATA` variables, the home
directory, the platform, and file existence. -/
structure AdcEnv where
  googleAppCreds : Option String
  appdata : Option String
  home : String
  isWin32 : Bool
  pathExists : String → Bool

/-- Path concatenation as used by `Path(...) / ...` (the separator is
irrelevant to the claims). -/
def pathJoin (a b : String) : String := a ++ "/" ++ b

/-- The platform-default ADC location (`gcloud_setup.py` lines 83–86). -/
def defaultAdcPath (e : AdcEnv) : String :=
  if e.isWin32 then
    pathJoin (pathJoin (e.appdata.getD "") "gcloud") "application_default_credentials.json"
  else
    pathJoin (pathJoin (pathJoin e.home ".config") "gcloud") "application_default_credentials.json"

/-- The fall-through of `get_adc_path`: the default location if it exists,
else `None`. -/
def adcFallback (e : AdcEnv) : Option String :=
  if e.pathExists (defaultAdcPath e) then some (defaultAdcPath e) else none

/-- `get_adc_path` (`gcloud_setup.py` lines 74–91). -/
def get_adc_path (e : AdcEnv) : Option String :=
  match e.googleAppCreds with
  | some p => if e.pathExists p then some p else adcFallback e
  | none => adcFallback e

/-- The argv lists of the four `subprocess.run` call sites of
`gcloud_setup.py` (lines 55–60, 174–179, 238–243, 300–311), in source
order; `project` is the value interpolated into the last call. -/
def gcloudSetupSubprocessCalls (project : String) : List (List String) :=
  [ ["gcloud", "--version"],
    ["gcloud", "config", "get-value", "project"],
    ["gcloud", "config", "get-value", "compute/region"],
    ["gcloud", "services", "list", "--enabled",
      "--filter=name:aiplatform.googleapis.com", "--format=value(name)",
      "--project=" ++ project] ]

/-- The three read-only gcloud query shapes the claim names:
`gcloud --version`, `gcloud config get-value ...`, `gcloud services list ...`. -/
def isReadOnlyGcloudQuery (argv : List String) : Bool :=
  (argv == ["gcloud", "--version"]) ||
  (argv.take 3 == ["gcloud", "config", "get-value"]) ||
  (argv.take 3 == ["gcloud", "services", "list"])

/-- gcloud subcommand verbs that mutate gcloud configuration or cloud
project state. A gcloud command mutates only through such a verb in
command position (one of the first two words after `gcloud`). -/
def gcloudMutatingVerbs : List String :=
  ["set", "unset", "enable", "disable", "login", "revoke",
   "create", "delete", "update", "init", "activate-service-account"]

/-- Whether an argv has a mutating verb in gcloud command position. -/
def spawnsMutatingCommand (argv : List String) : Bool :=
  (argv.take 3).any (fun a => gcloudMutatingVerbs.contains a)

/-- A write side effect of the process: an environment-variable
assignment or a file write. -/
inductive WriteEffect
  | envVar (name value : String)
  | file (path content : String)

/-- Whether a write effect touches only the process's own environment. -/
def isEnvVarWrite : WriteEffect → Bool
  | .envVar _ _ => true
  | .file _ _ => false

/-- The state-changing write effects of `gcloud_setup.py`: the two
`os.environ[...] = ...` assignments (lines 205 and 275).  The module
opens files only for reading and runs no other state change. -/
def gcloudSetupWrites (project region : String) : List WriteEffect :=
  [.envVar "GOOGLE_CLOUD_PROJECT" project, .envVar "GOOGLE_CLOUD_REGION" region]

end GcloudSetup

namespace Adapter

/-- Whether `needle` occurs at the front of `hay`. -/
def occursAtFront : List Char → List Char → Bool
  | [], _ => true
  | _ :: _, [] => false
  | a :: as, b :: bs => a == b && occursAtFront as bs

/-- Whether `needle` occurs contiguously anywhere in `hay`. -/
def occursInChars (needle : List Char) : List Char → Bool
  | [] => needle.isEmpty
  | c :: cs => occursAtFront needle (c :: cs) || occursInChars needle cs

/-- Whether `needle` occurs as a contiguous substring of `hay`. -/
def containsStr (hay needle : String) : Bool :=
  occursInChars needle.data hay.data

/-- The prompt options relevant to prefill handling: the prefill string,
the stop sequences sent to the provider, and the `hide_prefill` flag. -/
structure PromptOpts where
  prefill : String
  stop_sequences : List String
  hide_prefill : Bool

/-- Modelled from the spec: the adapter's source is not under `src/`
(only its test suite is); the spec describes it as "handling
prefill/stop-sequence echoing".  The provider returns the completion
generated after the prefill and stops before emitting any stop sequence;
the adapter echoes the prefill in front of the completion unless
`hide_prefill` is set, and appends nothing else. -/
def responseText (opts : PromptOpts) (completion : String) : String :=
  if opts.hide_prefill then completion else opts.prefill ++ completion

/-- A `tool_use` content block the model emits: its identifier, tool
name, and input payload. -/
structure ToolCall where
  id : String
  name : String
  arguments : String
deriving DecidableEq

/-- A `tool_result` block of the follow-up prompt: the identifier of the
call it answers and the tool's output. -/
structure ToolResult where
  tool_use_id : String
  output : String
deriving DecidableEq

/-- Modelled from the spec: the adapter's source is not under `src/`
(only its test suite is); the spec describes "multi-turn tool-call
threading" and "mapping tool-call identifiers back to results".  Each
tool call emitted in a response is executed and answered by one
`tool_result` carrying that call's identifier, in the order the calls
were made. -/
def buildToolResults (execTool : ToolCall → String) (calls : List ToolCall) : List ToolResult :=
  calls.map (fun c => ⟨c.id, execTool c⟩)

end Adapter

namespace Combined

/-- The combined state the two utility programs touch: the checker's
inputs and session environment writes, and the fixture script's files and
interactive input stream.  The two programs run as separate processes;
neither module imports the other. -/
structure World where
  checkerEnv : GcloudSetup.Env
  checkerEnvWrites : List GcloudSetup.WriteEffect
  files : List String
  promptInputs : List String

/-- Run the credential checker: it reads `checkerEnv`, records its
environment-variable writes, and produces its exit code and check trace.
It does not touch the fixture files or the script's input stream. -/
def runChecker (w : World) : World × (Nat × List GcloudSetup.Check) :=
  let r := GcloudSetup.mainRun w.checkerEnv
  ({ w with
      checkerEnvWrites :=
        GcloudSetup.gcloudSetupWrites
          ((w.checkerEnv.currentProject).getD "")
          ((w.checkerEnv.regionResult).getD "") },
    r)

/-- Run the fixture script: it reads and rewrites `files` guided by
`promptInputs`, and produces the script's observable result.  It does not
touch the checker's inputs or environment writes. -/
def runScript (parse : String → Option Cassette.Yaml)
    (dump : List Cassette.Interaction → String) (dec : List Nat → Option String)
    (w : World) : World × (List String × Option Nat × Nat) :=
  let r := Cassette.mainLoop parse dump dec w.promptInputs w.files
  ({ w with files := r.1 }, r)

end Combined

namespace Cassette

/-- What one pass of the interaction loop does to a single interaction,
when it does not raise: a bytes body that decompresses to a non-empty
text is replaced by that text, and a text body is left untouched. -/
theorem processInteraction_ok_spec (dec : List Nat → Option String)
    (i i' : Interaction) (m : Bool)
    (h : processInteraction dec i = .ok (i', m)) :
    (∀ bs d, getString i = some (.bytes bs) →
        dec (stripBytes bs) = some d → d ≠ "" →
        getString i' = some (.str d)) ∧
    (∀ s, getString i = some (.str s) → i' = i) := by
  obtain ⟨resp⟩ := i
  rcases resp with _ | ⟨_ | ⟨_ | s0 | bs0⟩, hs⟩
  · constructor
    · intro bs d h1 h2 h3
      simp [getString] at h1
    · intro s h1
      simp [getString] at h1
  · constructor
    · intro bs d h1 h2 h3
      simp [getString] at h1
    · intro s h1
      simp [getString] at h1
  · constructor
    · intro bs d h1 h2 h3
      simp [getString] at h1
    · intro s h1
      simp [getString] at h1
  · constructor
    · intro bs d h1 h2 h3
      simp [getString] at h1
    · intro s h1
      simp only [processInteraction] at h
      obtain ⟨rfl, rfl⟩ : Interaction.mk (some ⟨some ⟨some (.str s0)⟩, hs⟩) = i' ∧ false = m := by
        simpa using h
      rfl
  · constructor
    · intro bs d h1 h2 h3
      simp only [getString] at h1
      obtain rfl : bs0 = bs := by simpa using h1
      simp only [processInteraction, h2] at h
      rw [if_neg h3] at h
      by_cases hc : containsKey hs "Content-Encoding" = true
      · rw [if_pos hc] at h
        obtain ⟨rfl, rfl⟩ :
            Interaction.mk (some ⟨some ⟨some (.str d)⟩, removeKey hs "Content-Encoding"⟩) = i'
              ∧ true = m := by
          simpa using h
        rfl
      · rw [if_neg hc] at h
        simp at h
    · intro s h1
      simp [getString] at h1

/-- What the whole interaction loop does when it does not raise: the list
keeps its length, every bytes body that decompresses to a non-empty text
is replaced by that text, and every text body is left untouched. -/
theorem processInteractions_ok_spec (dec : List Nat → Option String) :
    ∀ (is is' : List Interaction) (m : Bool),
      processInteractions dec is = .ok (is', m) →
      is'.length = is.length ∧
      ∀ k (hk : k < is.length) (hk' : k < is'.length),
        (∀ bs d, getString (is.get ⟨k, hk⟩) = some (.bytes bs) →
            dec (stripBytes bs) = some d → d ≠ "" →
            getString (is'.get ⟨k, hk'⟩) = some (.str d)) ∧
        (∀ s, getString (is.get ⟨k, hk⟩) = some (.str s) →
            is'.get ⟨k, hk'⟩ = is.get ⟨k, hk⟩)
  | [], is', m, h => by
    obtain ⟨rfl, rfl⟩ : ([] : List Interaction) = is' ∧ false = m := by
      simpa [processInteractions] using h
    exact ⟨rfl, fun k hk => absurd hk (Nat.not_lt_zero k)⟩
  | i :: is, is', m, h => by
    simp only [processInteractions] at h
    cases hh : processInteraction dec i with
    | error e => rw [hh] at h; simp at h
    | ok pm =>
      obtain ⟨i', m1⟩ := pm
      rw [hh] at h
      cases ht : processInteractions dec is with
      | error e => rw [ht] at h; simp at h
      | ok tm =>
        obtain ⟨is1, m2⟩ := tm
        rw [ht] at h
        obtain ⟨rfl, rfl⟩ : i' :: is1 = is' ∧ (m1 || m2) = m := by simpa using h
        have hhead := processInteraction_ok_spec dec i i' m1 hh
        have htail := processInteractions_ok_spec dec is is1 m2 ht
        refine ⟨by simp [htail.1], ?_⟩
        intro k hk hk'
        cases k with
        | zero => simpa using hhead
        | succ n =>
          have hn : n < is.length := by simpa using hk
          have hn' : n < is1.length := by simpa using hk'
          simpa using htail.2 n hn hn'

end Cassette

/-- The (base64-decoded) gzip compression of the empty byte string, as
`gzip.compress(b'')` produces it: header `1f 8b 08 00`, zero mtime, flags,
OS byte, the empty final deflate block `03 00`, zero CRC32 and zero
size. -/
def emptyGzipBytes : List Nat :=
  [0x1f, 0x8b, 0x08, 0x00, 0x00, 0x00, 0x00, 0x00, 0x00, 0x03,
   0x03, 0x00, 0x00, 0x00, 0x00, 0x00, 0x00, 0x00, 0x00, 0x00]

/-- `decompress_gzip_string` restricted to the one input the
counterexamples use: gzip decompression of `emptyGzipBytes` succeeds and
UTF-8 decoding gives the empty string. -/
def gzipEmptyDec : List Nat → Option String :=
  fun bs => if bs = emptyGzipBytes then some "" else none

/-- An interaction whose `response.body.string` is the gzip compression
of the empty string, with a `Content-Encoding` header present. -/
def c1cxInput : Cassette.Interaction :=
  ⟨some ⟨some ⟨some (.bytes emptyGzipBytes)⟩, [("Content-Encoding", "gzip")]⟩⟩

/-- C1 counterexample: an interaction whose `response.body.string` is a
bytes value that decompresses as valid gzip — to the empty string — is
NOT replaced with the decompressed text: the truthiness test
`if decompressed:` rejects the empty string, so the interaction is left
unchanged (still bytes) and the file counts as unmodified. -/
theorem c1_counterexample :
    Cassette.processInteractions gzipEmptyDec [c1cxInput] = .ok ([c1cxInput], false) ∧
    gzipEmptyDec (Cassette.stripBytes emptyGzipBytes) = some "" ∧
    Cassette.getString c1cxInput = some (.bytes emptyGzipBytes) :=
  ⟨rfl, rfl, rfl⟩

/-- C1 (amended): for every cassette whose parsed content is a dict with
an `interactions` list, when the interaction loop of `process_yaml_file`
completes without raising, it replaces each interaction's
`response.body.string` that is a bytes value and decompresses as valid
gzip to a NON-EMPTY UTF-8 text with that text, and leaves every
`response.body.string` that is already a text string unchanged.  (A body
decompressing to the empty string is skipped, and a decompressed
interaction lacking a `Content-Encoding` header makes the loop raise
`KeyError` instead of completing — see C4.) -/
theorem c1_decompressed_bodies_rewritten (dec : List Nat → Option String)
    (is is' : List Cassette.Interaction) (m : Bool)
    (h : Cassette.processInteractions dec is = .ok (is', m)) :
    is'.length = is.length ∧
    ∀ k (hk : k < is.length) (hk' : k < is'.length),
      (∀ bs d, Cassette.getString (is.get ⟨k, hk⟩) = some (.bytes bs) →
          dec (Cassette.stripBytes bs) = some d → d ≠ "" →
          Cassette.getString (is'.get ⟨k, hk'⟩) = some (.str d)) ∧
      (∀ s, Cassette.getString (is.get ⟨k, hk⟩) = some (.str s) →
          is'.get ⟨k, hk'⟩ = is.get ⟨k, hk⟩) :=
  Cassette.processInteractions_ok_spec dec is is' m h

/-- Concrete decompressor for the C1 witness. -/
def c1dec : List Nat → Option String :=
  fun bs => if bs = [31, 139, 1] then some "hello" else none

/-- Concrete interaction for the C1 witness: a bytes body with a
`Content-Encoding` header. -/
def c1input : Cassette.Interaction :=
  ⟨some ⟨some ⟨some (.bytes [31, 139, 1])⟩, [("Content-Encoding", "gzip")]⟩⟩

/-- The rewritten interaction the C1 witness expects. -/
def c1output : Cassette.Interaction :=
  ⟨some ⟨some ⟨some (.str "hello")⟩, []⟩⟩

/-- C1 witness: the amended theorem applied at a concrete one-interaction
cassette whose bytes body decompresses to `"hello"`. -/
theorem c1_witness :
    Cassette.getString ([c1output].get ⟨0, Nat.zero_lt_one⟩) = some (.str "hello") :=
  ((c1_decompressed_bodies_rewritten c1dec [c1input] [c1output] true rfl).2
      0 Nat.zero_lt_one Nat.zero_lt_one).1 [31, 139, 1] "hello" rfl rfl (by decide)

/-- C2: on a file whose parse succeeded and whose interaction loop
completed with `modified = True` (so the diff is shown and the prompt
runs): answering `n`/`no` returns `False` with the on-disk content
unchanged; answering `q`/`quit` ends the process via `sys.exit(0)` with
the content unchanged; and the content changes only when the effective
answer is `y`/`yes`, in which case the transformed YAML dump is written
and `True` returned. -/
theorem c2_confirmation_gates_write (parse : String → Option Cassette.Yaml)
    (dump : List Cassette.Interaction → String) (dec : List Nat → Option String)
    (inputs : List String) (content : String)
    (is is' : List Cassette.Interaction) (modified : Bool)
    (hp : parse content = some (.cassette is))
    (hi : Cassette.processInteractions dec is = .ok (is', modified))
    (hm : modified = true) :
    (∀ rest, Cassette.askUser inputs = some (.skip, rest) →
      (Cassette.process_yaml_file parse dump dec inputs content).outcome = .ret false ∧
      (Cassette.process_yaml_file parse dump dec inputs content).content = content) ∧
    (∀ rest, Cassette.askUser inputs = some (.quit, rest) →
      (Cassette.process_yaml_file parse dump dec inputs content).outcome = .exitZero ∧
      (Cassette.process_yaml_file parse dump dec inputs content).content = content) ∧
    ((Cassette.process_yaml_file parse dump dec inputs content).content ≠ content →
      ∃ rest, Cassette.askUser inputs = some (.write, rest) ∧
        (Cassette.process_yaml_file parse dump dec inputs content).outcome = .ret true ∧
        (Cassette.process_yaml_file parse dump dec inputs content).content = dump is') := by
  subst hm
  simp only [Cassette.process_yaml_file, hp, hi, if_true]
  cases ha : Cassette.askUser inputs with
  | none => simp [ha]
  | some p =>
    obtain ⟨a, rest⟩ := p
    cases a <;> simp [ha]

/-- Concrete parse function for the C2 witness. -/
def c2parse : String → Option Cassette.Yaml := fun _ => some (.cassette [c1input])

/-- Concrete dump function for the C2 witness. -/
def c2dump : List Cassette.Interaction → String := fun _ => "rewritten-yaml"

/-- C2 witness: with input lines `["x", "no"]` (an unrecognised line, then
a refusal), the file transform returns `False` and the content on disk
stays `"orig"`. -/
theorem c2_witness :
    (Cassette.process_yaml_file c2parse c2dump c1dec ["x", "no"] "orig").outcome =
      .ret false ∧
    (Cassette.process_yaml_file c2parse c2dump c1dec ["x", "no"] "orig").content = "orig" :=
  (c2_confirmation_gates_write c2parse c2dump c1dec ["x", "no"] "orig"
      [c1input] [c1output] true rfl rfl rfl).1 [] rfl

/-- A decompressed interaction whose headers lack `Content-Encoding`
makes the loop body raise `KeyError` at the `headers.pop` call. -/
theorem Cassette.processInteraction_missing_header_raises (dec : List Nat → Option String)
    (bs : List Nat) (d : String) (hs : List (String × String))
    (hdec : dec (Cassette.stripBytes bs) = some d) (hd : d ≠ "")
    (hce : Cassette.containsKey hs "Content-Encoding" = false) :
    Cassette.processInteraction dec ⟨some ⟨some ⟨some (.bytes bs)⟩, hs⟩⟩ = .error () := by
  simp only [Cassette.processInteraction, hdec]
  rw [if_neg hd, if_neg (by simp [hce])]

/-- A raised `KeyError` at any interaction aborts the whole interaction
loop with that error. -/
theorem Cassette.processInteractions_error_of_mem (dec : List Nat → Option String)
    (is : List Cassette.Interaction) (i : Cassette.Interaction) (hmem : i ∈ is)
    (herr : Cassette.processInteraction dec i = .error ()) :
    Cassette.processInteractions dec is = .error () := by
  induction is with
  | nil => cases hmem
  | cons a as ih =>
    rcases List.mem_cons.mp hmem with rfl | hmem'
    · simp [Cassette.processInteractions, herr]
    · cases ha : Cassette.processInteraction dec a with
      | error e => cases e; simp [Cassette.processInteractions, ha]
      | ok pm =>
        obtain ⟨a', m1⟩ := pm
        simp [Cassette.processInteractions, ha, ih hmem']

/-- C4 (amended): if an interaction's `response.body.string` is bytes and
decompresses successfully TO A NON-EMPTY STRING but the interaction's
response headers contain no `Content-Encoding` key, `process_yaml_file`
raises `KeyError` before any confirmation prompt (no input is consumed
and the file on disk is unchanged); the per-file `except Exception`
handler in `main` catches it, so the loop continues with the next file
exactly as if this file had merely been skipped.  (A body decompressing
to the empty string is skipped by the truthiness test and raises
nothing.) -/
theorem c4_missing_content_encoding_raises (parse : String → Option Cassette.Yaml)
    (dump : List Cassette.Interaction → String) (dec : List Nat → Option String)
    (inputs : List String) (content : String) (cs : List String)
    (is : List Cassette.Interaction) (i : Cassette.Interaction)
    (bs : List Nat) (d : String) (hs : List (String × String))
    (hp : parse content = some (.cassette is))
    (hmem : i ∈ is)
    (hstr : Cassette.getString i = some (.bytes bs))
    (hhdr : Cassette.getHeaders i = some hs)
    (hdec : dec (Cassette.stripBytes bs) = some d) (hd : d ≠ "")
    (hce : Cassette.containsKey hs "Content-Encoding" = false) :
    Cassette.process_yaml_file parse dump dec inputs content =
      ⟨.raised, content, inputs⟩ ∧
    Cassette.mainLoop parse dump dec inputs (content :: cs) =
      (content :: (Cassette.mainLoop parse dump dec inputs cs).1,
       (Cassette.mainLoop parse dump dec inputs cs).2) := by
  obtain ⟨resp⟩ := i
  rcases resp with _ | ⟨_ | ⟨_ | s0 | bs0⟩, hs0⟩
  · simp [Cassette.getString] at hstr
  · simp [Cassette.getString] at hstr
  · simp [Cassette.getString] at hstr
  · simp [Cassette.getString] at hstr
  · obtain rfl : bs0 = bs := by simpa [Cassette.getString] using hstr
    obtain rfl : hs0 = hs := by simpa [Cassette.getHeaders] using hhdr
    have herr :=
      Cassette.processInteraction_missing_header_raises dec bs0 d hs0 hdec hd hce
    have hloop := Cassette.processInteractions_error_of_mem dec is _ hmem herr
    have hfile : Cassette.process_yaml_file parse dump dec inputs content =
        ⟨.raised, content, inputs⟩ := by
      simp [Cassette.process_yaml_file, hp, hloop]
    refine ⟨hfile, ?_⟩
    simp [Cassette.mainLoop, hfile]

/-- An interaction like the C4 counterexample needs: a bytes body that
decompresses to the empty string and NO `Content-Encoding` header. -/
def c4cxInput : Cassette.Interaction :=
  ⟨some ⟨some ⟨some (.bytes emptyGzipBytes)⟩, []⟩⟩

/-- Concrete parse function for the C4 counterexample. -/
def c4cxParse : String → Option Cassette.Yaml := fun _ => some (.cassette [c4cxInput])

/-- Concrete dump function for the C4 theorems. -/
def c4cxDump : List Cassette.Interaction → String := fun _ => "dumped"

/-- C4 counterexample: a bytes body that decompresses successfully — to
the empty string — in an interaction with no `Content-Encoding` header
raises nothing: the truthiness test skips the header pop and
`process_yaml_file` returns `False` normally, instead of raising
`KeyError` as the claim states. -/
theorem c4_counterexample :
    Cassette.process_yaml_file c4cxParse c4cxDump gzipEmptyDec [] "orig" =
      ⟨.ret false, "orig", []⟩ ∧
    Cassette.getString c4cxInput = some (.bytes emptyGzipBytes) ∧
    Cassette.getHeaders c4cxInput = some [] ∧
    gzipEmptyDec (Cassette.stripBytes emptyGzipBytes) = some "" :=
  ⟨rfl, rfl, rfl, rfl⟩

/-- Concrete interaction for the C4 witness: bytes decompressing to
`"hello"`, headers without `Content-Encoding`. -/
def c4winput : Cassette.Interaction :=
  ⟨some ⟨some ⟨some (.bytes [31, 139, 1])⟩, []⟩⟩

/-- Concrete parse function for the C4 witness. -/
def c4wparse : String → Option Cassette.Yaml := fun _ => some (.cassette [c4winput])

/-- C4 witness: the amended theorem applied at a concrete two-file run:
the first file raises, is left unchanged with no input consumed, and the
loop continues with the second file. -/
theorem c4_witness :
    Cassette.process_yaml_file c4wparse c4cxDump c1dec ["y"] "orig" =
      ⟨.raised, "orig", ["y"]⟩ ∧
    Cassette.mainLoop c4wparse c4cxDump c1dec ["y"] ["orig", "other"] =
      ("orig" :: (Cassette.mainLoop c4wparse c4cxDump c1dec ["y"] ["other"]).1,
       (Cassette.mainLoop c4wparse c4cxDump c1dec ["y"] ["other"]).2) :=
  c4_missing_content_encoding_raises c4wparse c4cxDump c1dec ["y"] "orig" ["other"]
    [c4winput] c4winput [31, 139, 1] "hello" [] rfl (List.mem_singleton.mpr rfl)
    rfl rfl rfl (by decide) rfl

/-- C3: `main` runs its checks in the fixed order gcloud SDK, ADC,
project, region, Vertex AI API; it returns exit code 1 at the first
failure among the first four checks, having run exactly the checks up to
and including the failing one; and it returns exit code 0 whenever the
first four succeed — the Vertex AI API check runs but its result never
changes the exit code. -/
theorem c3_main_check_order (e : GcloudSetup.Env) :
    GcloudSetup.mainRun e =
      (if e.gcloudInstalled = false then (1, GcloudSetup.checkOrder.take 1)
       else if e.adcValid = false then (1, GcloudSetup.checkOrder.take 2)
       else if e.currentProject = none then (1, GcloudSetup.checkOrder.take 3)
       else if e.regionResult = none then (1, GcloudSetup.checkOrder.take 4)
       else (0, GcloudSetup.checkOrder)) ∧
    (∀ b, GcloudSetup.mainRun { e with apiEnabled := b } = GcloudSetup.mainRun e) := by
  obtain ⟨g, a, ct, cp, pe, pa, rr, api⟩ := e
  constructor
  · cases g <;> cases a <;> rcases cp with _ | p <;> rcases rr with _ | r <;>
      simp [GcloudSetup.mainRun, GcloudSetup.checkOrder,
        GcloudSetup.set_project_env_var_eq_true]
  · intro b
    rfl

/-- C5: every subprocess the credential checker spawns is one of the
read-only gcloud queries `gcloud --version`, `gcloud config get-value`,
or `gcloud services list`; none carries a mutating gcloud verb in command
position; and every state-changing write effect of the module is an
assignment to its own process environment variables. -/
theorem c5_subprocesses_read_only (project region : String) :
    (GcloudSetup.gcloudSetupSubprocessCalls project).all
        GcloudSetup.isReadOnlyGcloudQuery = true ∧
    (GcloudSetup.gcloudSetupSubprocessCalls project).all
        (fun c => !GcloudSetup.spawnsMutatingCommand c) = true ∧
    (GcloudSetup.gcloudSetupWrites project region).all
        GcloudSetup.isEnvVarWrite = true :=
  ⟨rfl, rfl, rfl⟩

/-- C6 (amended): `check_credential_expiry` returns
`(True, 'service_account')` for every credentials dict whose `type` is
`service_account`; for `authorized_user` it returns `(False, 'user')`
exactly when the dict holds an `expiry` string parsing to a
timezone-AWARE timestamp strictly earlier than the current time,
`(True, 'user')` when `expiry` is absent, not a string, unparseable, or
aware and not earlier — but an `expiry` string parsing to a
timezone-NAIVE timestamp makes the aware/naive comparison raise an
uncaught `TypeError`; every other `type` (including an absent one)
yields `(True, 'other')`. -/
theorem c6_check_credential_expiry_cases (parse : String → Option GcloudSetup.ParsedTime)
    (now : Int) (c : GcloudSetup.Creds) :
    (c.type = some "service_account" →
      GcloudSetup.check_credential_expiry parse now c = .ok (true, some "service_account")) ∧
    (c.type = some "authorized_user" →
      (∀ s t, c.expiry = some (.str s) →
          parse (GcloudSetup.pyReplaceZ s) = some (.aware t) →
          GcloudSetup.check_credential_expiry parse now c =
            .ok (if t < now then false else true, some "user")) ∧
      (∀ s t, c.expiry = some (.str s) →
          parse (GcloudSetup.pyReplaceZ s) = some (.naive t) →
          GcloudSetup.check_credential_expiry parse now c = .error ()) ∧
      (∀ s, c.expiry = some (.str s) → parse (GcloudSetup.pyReplaceZ s) = none →
          GcloudSetup.check_credential_expiry parse now c = .ok (true, some "user")) ∧
      (c.expiry = some .nonStr →
          GcloudSetup.check_credential_expiry parse now c = .ok (true, some "user")) ∧
      (c.expiry = none →
          GcloudSetup.check_credential_expiry parse now c = .ok (true, some "user"))) ∧
    (∀ t, c.type = some t → t ≠ "service_account" → t ≠ "authorized_user" →
      GcloudSetup.check_credential_expiry parse now c = .ok (true, some "other")) ∧
    (c.type = none →
      GcloudSetup.check_credential_expiry parse now c = .ok (true, some "other")) := by
  refine ⟨?_, ?_, ?_, ?_⟩
  · intro h
    simp [GcloudSetup.check_credential_expiry, h]
  · intro h
    refine ⟨?_, ?_, ?_, ?_, ?_⟩
    · intro s t hs hparse
      by_cases ht : t < now <;>
        simp [GcloudSetup.check_credential_expiry, h, hs, hparse, ht]
    · intro s t hs hparse
      simp [GcloudSetup.check_credential_expiry, h, hs, hparse]
    · intro s hs hparse
      simp [GcloudSetup.check_credential_expiry, h, hs, hparse]
    · intro hs
      simp [GcloudSetup.check_credential_expiry, h, hs]
    · intro hs
      simp [GcloudSetup.check_credential_expiry, h, hs]
  · intro t ht h1 h2
    simp [GcloudSetup.check_credential_expiry, ht, h1, h2]
  · intro ht
    simp [GcloudSetup.check_credential_expiry, ht]

/-- `datetime.fromisoformat` for the C6 counterexample: the string
`2020-01-01T00:00:00` carries no offset, so it parses to a naive
datetime. -/
def c6parse : String → Option GcloudSetup.ParsedTime :=
  fun s => if s = "2020-01-01T00:00:00" then some (.naive 1577836800) else none

/-- An authorized_user credentials dict with a naive expiry string. -/
def c6creds : GcloudSetup.Creds :=
  ⟨some "authorized_user", some (.str "2020-01-01T00:00:00")⟩

/-- C6 counterexample: an `authorized_user` dict whose `expiry` parses —
the string is a valid ISO timestamp, merely without a timezone offset —
makes `check_credential_expiry` raise `TypeError` at the naive-vs-aware
comparison instead of returning `(False, 'user')` or `(True, 'user')` as
the claim states. -/
theorem c6_counterexample :
    GcloudSetup.check_credential_expiry c6parse 1700000000 c6creds = .error () ∧
    c6creds.type = some "authorized_user" ∧
    c6parse (GcloudSetup.pyReplaceZ "2020-01-01T00:00:00") = some (.naive 1577836800) :=
  ⟨rfl, rfl, rfl⟩

/-- A service-account credentials dict for the C6 witness. -/
def c6wcreds : GcloudSetup.Creds := ⟨some "service_account", none⟩

/-- C6 witness: the amended theorem applied at a concrete
service-account dict. -/
theorem c6_witness :
    GcloudSetup.check_credential_expiry c6parse 0 c6wcreds =
      .ok (true, some "service_account") :=
  (c6_check_credential_expiry_cases c6parse 0 c6wcreds).1 rfl

/-- C7: `get_adc_path` returns the `GOOGLE_APPLICATION_CREDENTIALS` path
exactly when the variable is set and the path exists; when it is unset,
or set to a nonexistent path (which is silently ignored), the result is
the platform-default ADC location if that exists, and `None` when
neither exists. -/
theorem c7_get_adc_path_cases (e : GcloudSetup.AdcEnv) :
    (∀ p, e.googleAppCreds = some p → e.pathExists p = true →
      GcloudSetup.get_adc_path e = some p) ∧
    (∀ p, e.googleAppCreds = some p → e.pathExists p = false →
      GcloudSetup.get_adc_path e =
        (if e.pathExists (GcloudSetup.defaultAdcPath e) then
          some (GcloudSetup.defaultAdcPath e) else none)) ∧
    (e.googleAppCreds = none →
      GcloudSetup.get_adc_path e =
        (if e.pathExists (GcloudSetup.defaultAdcPath e) then
          some (GcloudSetup.defaultAdcPath e) else none)) := by
  refine ⟨?_, ?_, ?_⟩
  · intro p hp hex
    simp [GcloudSetup.get_adc_path, hp, hex]
  · intro p hp hex
    simp [GcloudSetup.get_adc_path, GcloudSetup.adcFallback, hp, hex]
  · intro hn
    simp [GcloudSetup.get_adc_path, GcloudSetup.adcFallback, hn]

/-- Concrete environment for the C7 witness: the variable is set and the
file exists. -/
def c7env : GcloudSetup.AdcEnv :=
  ⟨some "/tmp/creds.json", none, "/home/u", false, fun p => p == "/tmp/creds.json"⟩

/-- C7 witness: the theorem applied at that environment. -/
theorem c7_witness : GcloudSetup.get_adc_path c7env = some "/tmp/creds.json" :=
  (c7_get_adc_path_cases c7env).1 "/tmp/creds.json" rfl rfl

/-- C8: with `hide_prefill = True` the adapter does not echo the prefill
in front of the completion, so — given that the provider's completion
itself contains neither the prefill string nor any stop sequence (it
stops before emitting one) — the returned response text contains neither
the echoed prefill string nor any stop sequence. -/
theorem c8_hide_prefill_suppresses_echo (opts : Adapter.PromptOpts) (completion : String)
    (hhide : opts.hide_prefill = true)
    (hnp : Adapter.containsStr completion opts.prefill = false)
    (hns : ∀ stop ∈ opts.stop_sequences, Adapter.containsStr completion stop = false) :
    Adapter.responseText opts completion = completion ∧
    Adapter.containsStr (Adapter.responseText opts completion) opts.prefill = false ∧
    ∀ stop ∈ opts.stop_sequences,
      Adapter.containsStr (Adapter.responseText opts completion) stop = false := by
  have ht : Adapter.responseText opts completion = completion := by
    simp [Adapter.responseText, hhide]
  refine ⟨ht, ?_, ?_⟩
  · rw [ht]
    exact hnp
  · intro stop hmem
    rw [ht]
    exact hns stop hmem

/-- The prompt options of the recorded prefill test: prefill
"```python", stop sequence "```", `hide_prefill = True`. -/
def c8opts : Adapter.PromptOpts := ⟨"```python", ["```"], true⟩

/-- A completion like the recorded one: no backticks, no prefill echo. -/
def c8completion : String := "\ndef pelican():\n    return 1\n"

/-- C8 witness: the theorem applied at the recorded test's options. -/
theorem c8_witness :
    Adapter.responseText c8opts c8completion = c8completion ∧
    Adapter.containsStr (Adapter.responseText c8opts c8completion) c8opts.prefill = false ∧
    ∀ stop ∈ c8opts.stop_sequences,
      Adapter.containsStr (Adapter.responseText c8opts c8completion) stop = false :=
  c8_hide_prefill_suppresses_echo c8opts c8completion rfl (by decide) (by decide)

/-- C9: the follow-up prompt built after a tool-emitting response holds
exactly one tool result per emitted tool call, in the order the calls
were made: the result lists have equal length, and the k-th result
carries the k-th call's identifier and that call's output. -/
theorem c9_tool_results_pair_in_order (execTool : Adapter.ToolCall → String)
    (calls : List Adapter.ToolCall) :
    (Adapter.buildToolResults execTool calls).length = calls.length ∧
    ∀ k (hk : k < calls.length)
        (hk' : k < (Adapter.buildToolResults execTool calls).length),
      ((Adapter.buildToolResults execTool calls).get ⟨k, hk'⟩).tool_use_id =
        (calls.get ⟨k, hk⟩).id ∧
      ((Adapter.buildToolResults execTool calls).get ⟨k, hk'⟩).output =
        execTool (calls.get ⟨k, hk⟩) := by
  refine ⟨by simp [Adapter.buildToolResults], ?_⟩
  intro k hk hk'
  simp [Adapter.buildToolResults]

/-- The two tool calls of the recorded tools test. -/
def c9calls : List Adapter.ToolCall :=
  [⟨"toolu_01", "pelican_name_generator", ""⟩,
   ⟨"toolu_02", "pelican_name_generator", ""⟩]

/-- The tool outputs of the recorded tools test. -/
def c9exec : Adapter.ToolCall → String :=
  fun c => if c.id = "toolu_01" then "Charles" else "Sammy"

/-- C9 witness: the theorem applied at the recorded test's two calls,
checked at index 1. -/
theorem c9_witness :
    ((Adapter.buildToolResults c9exec c9calls).get ⟨1, by decide⟩).tool_use_id =
      (c9calls.get ⟨1, by decide⟩).id ∧
    ((Adapter.buildToolResults c9exec c9calls).get ⟨1, by decide⟩).output =
      c9exec (c9calls.get ⟨1, by decide⟩) :=
  (c9_tool_results_pair_in_order c9exec c9calls).2 1 (by decide) (by decide)

/-- C10: the credential checker and the fixture-rewriting script do not
interfere: the checker's exit code and check trace are the same whether
or not the script has run, the script's on-disk results and counters are
the same whether or not the checker has run, and running the two in
either order leaves the combined state identical — each program reads
and writes only its own component of the state. -/
theorem c10_checker_script_noninterference (parse : String → Option Cassette.Yaml)
    (dump : List Cassette.Interaction → String) (dec : List Nat → Option String)
    (w : Combined.World) :
    (Combined.runChecker ((Combined.runScript parse dump dec w).1)).2 =
      (Combined.runChecker w).2 ∧
    (Combined.runScript parse dump dec ((Combined.runChecker w).1)).2 =
      (Combined.runScript parse dump dec w).2 ∧
    (Combined.runChecker ((Combined.runScript parse dump dec w).1)).1 =
      (Combined.runScript parse dump dec ((Combined.runChecker w).1)).1 := by
  obtain ⟨ce, cw, fs, pi⟩ := w
  exact ⟨rfl, rfl, rfl⟩
